import Mathlib

set_option linter.unusedVariables false

attribute [local semireducible] Rat.mul Rat.add Rat.sub Rat.inv
attribute [local semireducible] Rat.ofScientific

/-!
Shallow embedding of the vibration-spectrum engine
(`src/SpectrumCalculationModule.ts` and `src/types.ts`) in Lean 4.

Numbers are modelled as exact rationals (`ℚ`).  The external numeric
primitives that the TypeScript code imports or gets from the JS runtime —
the forward real transform of the `fft.js` library, `Math.sqrt`, `Math.cos`
and `Math.PI` — are not part of the repository, so they are passed to the
embedded functions as explicit parameters (`rt`, `sqrtQ`, `cosQ`, `piQ`).
The wall-clock reading `Date.now() - startTime` is likewise
non-deterministic at this level and is passed in as `elapsedMs`.

JS `Map`s keyed by freshly allocated `[start, end]` arrays compare keys by
reference, so every `set` performed by the module appends a new entry;
they are therefore modelled as insertion-ordered association lists.
-/

namespace Spectrum

/-- Window types from `types.ts`. -/
inductive WindowType where
  | Hanning
  | Rectangular
deriving DecidableEq, Repr

/-- Physical quantity tags from `types.ts`. -/
inductive Quantity where
  | Acceleration
  | Velocity
  | Displacement
deriving DecidableEq, Repr

/-- Interface `TimeWaveform` from `types.ts`. -/
structure TimeWaveform where
  data : List ℚ
  sampleRate : ℚ
  quantity : Quantity
deriving DecidableEq, Repr

/-- One entry of the `bandPeaks` map: a `[start, end]` band key and its peak. -/
abbrev BandEntry : Type := (ℚ × ℚ) × ℚ

/-- Interface `SpectrumResult` from `types.ts`.  The TypeScript code additionally
attaches a `rawSpectrum` array dynamically on the success path of
`calculateSpectrum`; it is modelled as an optional field (`none` when the
property is absent). -/
structure SpectrumResult where
  maxFrequency : ℚ
  resolution : ℚ
  quantity : Quantity
  bandPeaks : List BandEntry
  isValid : Bool
  errorMessage : Option String := none
  rawSpectrum : Option (List ℚ) := none
deriving DecidableEq, Repr

-- `CONSTANTS` from `types.ts`.
namespace CONSTANTS

def MAX_LINES : ℚ := 102400
def MIN_LINES : ℚ := 100
def MAX_SAMPLE_RATE : ℚ := 131072
def MAX_WAVEFORM_LENGTH : ℚ := 5 * 60
def MAX_SPECTRUM_CALC_TIME : ℚ := 100
def PEAK_TOLERANCE : ℚ := 1 / 100

end CONSTANTS

/-- The mutable configuration fields of `SpectrumCalculationModule`
(the per-instance state the setters write and `calculateSpectrum` reads). -/
structure Config where
  numberOfLines : ℚ := 1024
  windowType : WindowType := WindowType.Hanning
  minFrequency : ℚ := 0
  maxFrequency : ℚ := 1000
  highPassFrequency : ℚ := 0
  lowPassFrequency : ℚ := 0
  bandRange : ℚ := 25
deriving DecidableEq, Repr

/-- Helper `areParametersValid` (joint parameter check). -/
def areParametersValid (c : Config) : Bool :=
  decide (CONSTANTS.MIN_LINES ≤ c.numberOfLines) &&
  decide (c.numberOfLines ≤ CONSTANTS.MAX_LINES) &&
  decide (0 ≤ c.minFrequency) &&
  decide (c.minFrequency < c.maxFrequency) &&
  decide (0 < c.bandRange) &&
  decide (c.bandRange ≤ c.maxFrequency)

/-- Helper `isFilterValid` (filter-ordering sanity check). -/
def isFilterValid (c : Config) : Bool :=
  if c.highPassFrequency = 0 then
    true
  else if c.lowPassFrequency = 0 then
    true
  else
    decide (c.highPassFrequency < c.lowPassFrequency)

/-- Helper `isIntegrationAllowed`: integration requires a nonzero high-pass filter. -/
def isIntegrationAllowed (c : Config) : Bool :=
  decide (0 < c.highPassFrequency)

/-- Method `limitPrecision`: `parseFloat(value.toFixed(10))`, i.e. rounding to 10
decimal digits, with ECMAScript tie-breaking towards the larger value
(which `round` on `ℚ` matches: halves round up). -/
def limitPrecision (value : ℚ) : ℚ :=
  round (value * 10 ^ 10) / 10 ^ 10

/-- Method `applyWindow`: multiply sample `i` of `n` by the Hanning factor
`0.5 * (1 - cos(2π i / (n - 1)))`, or leave the data unchanged for the
rectangular window.  `cosQ` and `piQ` stand for `Math.cos` and `Math.PI`. -/
def applyWindow (cosQ : ℚ → ℚ) (piQ : ℚ) (windowType : WindowType)
    (data : List ℚ) : List ℚ :=
  match windowType with
  | WindowType.Hanning =>
      data.mapIdx fun i x =>
        x * (1 / 2 * (1 - cosQ (2 * piQ * i / ((data.length : ℚ) - 1))))
  | WindowType.Rectangular => data

/-- The `while (power < n) power *= 2` loop of `getNextPowerOfTwo`.
The loop is only ever entered with `power = 1`; the `0 < power` guard makes
the recursion well-founded (with `power = 0` the JS loop would not
terminate either). -/
def nextPowerLoop (n power : ℕ) : ℕ :=
  if h : 0 < power ∧ power < n then
    nextPowerLoop n (power * 2)
  else
    power
termination_by n - power
decreasing_by omega

/-- Method `getNextPowerOfTwo`. -/
def getNextPowerOfTwo (n : ℕ) : ℕ :=
  if n &&& (n - 1) = 0 then n else nextPowerLoop n 1

/-- Method `applyFrequencyDomainFiltering`: zero bins below
`floor(minFrequency/resolution)`, additionally below
`floor(highPassFrequency/resolution)` when the high-pass is set, and at or
above `ceil(cutoffFreq/resolution)` where `cutoffFreq` is
`min(maxFrequency, lowPassFrequency)` when the low-pass is set and
`maxFrequency` otherwise. -/
def applyFrequencyDomainFiltering (c : Config) (spectrum : List ℚ)
    (resolution : ℚ) : List ℚ :=
  let minFreqIndex : ℤ := ⌊c.minFrequency / resolution⌋
  let filtered1 := spectrum.mapIdx fun i x =>
    if (i : ℤ) < minFreqIndex then 0 else x
  let filtered2 :=
    if 0 < c.highPassFrequency then
      let highPassIndex : ℤ := ⌊c.highPassFrequency / resolution⌋
      filtered1.mapIdx fun i x => if (i : ℤ) < highPassIndex then 0 else x
    else
      filtered1
  let cutoffFreq :=
    if 0 < c.lowPassFrequency then
      min c.maxFrequency c.lowPassFrequency
    else
      c.maxFrequency
  let cutoffIndex : ℤ := ⌈cutoffFreq / resolution⌉
  filtered2.mapIdx fun i x => if cutoffIndex ≤ (i : ℤ) then 0 else x

/-- Method `calculateRealPeakInBand`: maximum spectrum magnitude over bin indices
`i` with `floor(startFreq/resolution) ≤ i < ceil(endFreq/resolution)` and
`i < spectrum.length`, starting from `0`, rounded to 10 decimals.
(The JS loop also visits negative indices when `startIndex < 0`; those
reads yield `undefined` and never update the maximum, so only the
non-negative indices matter.) -/
def calculateRealPeakInBand (spectrum : List ℚ) (startFreq endFreq : ℚ)
    (resolution : ℚ) : ℚ :=
  let startIndex : ℤ := ⌊startFreq / resolution⌋
  let endIndex : ℤ := ⌈endFreq / resolution⌉
  let inBand := (List.range spectrum.length).filter fun (i : ℕ) =>
    decide (startIndex ≤ (i : ℤ)) && decide ((i : ℤ) < endIndex)
  let maxValue := inBand.foldl
    (fun m i => let x := spectrum.getD i 0; if m < x then x else m) 0
  limitPrecision maxValue

/-- The band-generation loop of `calculateSpectrum`:
`for (startFreq = minFrequency; startFreq < maxFrequency;
startFreq += bandRange)`.  Returns the successive start frequencies.
The `0 < range` guard makes the recursion well-founded; every call site is
guarded by `areParametersValid`, which guarantees `0 < bandRange`
(with `range ≤ 0` the JS loop would not terminate). -/
def bandStarts (startFreq maxFreq range : ℚ) : List ℚ :=
  if h : startFreq < maxFreq ∧ 0 < range then
    startFreq :: bandStarts (startFreq + range) maxFreq range
  else
    []
termination_by (⌈(maxFreq - startFreq) / range⌉).toNat
decreasing_by
  have hpos : 0 < (maxFreq - startFreq) / range :=
    div_pos (by linarith [h.1]) h.2
  have h1 : 0 < ⌈(maxFreq - startFreq) / range⌉ := Int.ceil_pos.mpr hpos
  have hr0 : range ≠ 0 := ne_of_gt h.2
  have h2 : (maxFreq - (startFreq + range)) / range =
      (maxFreq - startFreq) / range - 1 := by
    rw [show maxFreq - (startFreq + range) = (maxFreq - startFreq) - range by
      ring, sub_div, div_self hr0]
  rw [h2, Int.ceil_sub_one]
  omega

/-- The zero-padding step of `calculateSpectrum`: pad with zeroes up to the
next power of two when the length is not already one. -/
def zeroPad (data : List ℚ) : List ℚ :=
  let nextPowerOfTwo := getNextPowerOfTwo data.length
  if data.length < nextPowerOfTwo then
    data ++ List.replicate (nextPowerOfTwo - data.length) 0
  else
    data

/-- The magnitude-extraction step of `calculateSpectrum`: for each of the
first `n / 2` bins read the interleaved re/im parts from the transform
output `out` and take `sqrt(re² + im²) / n`, rounded to 10 decimals. -/
def magnitudeSpectrum (sqrtQ : ℚ → ℚ) (out : List ℚ) (n : ℕ) : List ℚ :=
  (List.range (n / 2)).map fun i =>
    limitPrecision
      (sqrtQ (out.getD (2 * i) 0 * out.getD (2 * i) 0 +
          out.getD (2 * i + 1) 0 * out.getD (2 * i + 1) 0) /
        (n : ℚ))

/-- Method `calculateSpectrum`.  External primitives are passed explicitly:
`rt` is `fft.realTransform` (interleaved re/im output read with default `0`
out of bounds, matching reads from the preallocated complex array), `sqrtQ`
is `Math.sqrt`, `cosQ` is `Math.cos`, `piQ` is `Math.PI`; `elapsedMs` is the
value of `Date.now() - startTime` observed at the final budget check.
`limitedSpectrum` is computed and, as in the source, never used. -/
def calculateSpectrum (rt : List ℚ → List ℚ) (sqrtQ cosQ : ℚ → ℚ)
    (piQ : ℚ) (c : Config) (waveform : TimeWaveform) (elapsedMs : ℚ) :
    SpectrumResult :=
  if areParametersValid c = false then
    { maxFrequency := c.maxFrequency
      resolution := 0
      quantity := waveform.quantity
      bandPeaks := []
      isValid := false
      errorMessage := some "Invalid spectrum parameters" }
  else if isFilterValid c = false then
    { maxFrequency := c.maxFrequency
      resolution := 0
      quantity := waveform.quantity
      bandPeaks := []
      isValid := false
      errorMessage :=
        some "High pass frequency must be smaller than low pass frequency" }
  else if waveform.sampleRate < c.maxFrequency * 2.56 then
    { maxFrequency := c.maxFrequency
      resolution := 0
      quantity := waveform.quantity
      bandPeaks := []
      isValid := false
      errorMessage :=
        some "Sample rate must be at least 2.56 times higher than maximum frequency" }
  else if CONSTANTS.MAX_SAMPLE_RATE < waveform.sampleRate then
    { maxFrequency := c.maxFrequency
      resolution := 0
      quantity := waveform.quantity
      bandPeaks := []
      isValid := false
      errorMessage := some "Sample rate cannot exceed 131072 Hz" }
  else if CONSTANTS.MAX_SAMPLE_RATE * CONSTANTS.MAX_WAVEFORM_LENGTH <
      (waveform.data.length : ℚ) then
    { maxFrequency := c.maxFrequency
      resolution := 0
      quantity := waveform.quantity
      bandPeaks := []
      isValid := false
      errorMessage :=
        some "Time waveform length exceeds maximum allowed (5 minutes at 131072 Hz)" }
  else
    let windowedData := applyWindow cosQ piQ c.windowType waveform.data
    let paddedData := zeroPad windowedData
    let spectrum := magnitudeSpectrum sqrtQ (rt paddedData) paddedData.length
    let resolution := waveform.sampleRate / (paddedData.length : ℚ)
    let filteredSpectrum := applyFrequencyDomainFiltering c spectrum resolution
    let limitedSpectrum :=
      filteredSpectrum.take
        (min filteredSpectrum.length (⌊c.numberOfLines⌋).toNat)
    let bandPeaks := (bandStarts c.minFrequency c.maxFrequency c.bandRange).map
      fun startFreq =>
        let endFreq := min (startFreq + c.bandRange) c.maxFrequency
        ((startFreq, endFreq),
          calculateRealPeakInBand spectrum startFreq endFreq resolution)
    if CONSTANTS.MAX_SPECTRUM_CALC_TIME < elapsedMs then
      { maxFrequency := c.maxFrequency
        resolution := resolution
        quantity := waveform.quantity
        bandPeaks := []
        isValid := false
        errorMessage :=
          some "Spectrum calculation time exceeded maximum allowed (100 ms)" }
    else
      { maxFrequency := c.maxFrequency
        resolution := resolution
        quantity := waveform.quantity
        bandPeaks := bandPeaks
        isValid := true
        errorMessage := none
        rawSpectrum := some spectrum }

/-- The per-entry transformation of the integration loop: entries whose
center frequency `(start + end) / 2` is not positive are skipped, the
others keep their key and divide their value by `2 π · centerFreq`
(rounded to 10 decimals). -/
def integrateEntry (piQ : ℚ) (bv : BandEntry) : Option BandEntry :=
  let centerFreq := (bv.1.1 + bv.1.2) / 2
  if centerFreq ≤ 0 then
    none
  else
    some (bv.1, limitPrecision (bv.2 / (2 * piQ * centerFreq)))

/-- Method `integrateSpectrum`.  The two failure paths spread the input and only
override `isValid` / `errorMessage`; the success path spreads the input,
advances the quantity, marks the result valid and rebuilds `bandPeaks`
into a fresh map by the loop over the input entries. -/
def integrateSpectrum (piQ : ℚ) (c : Config) (spectrum : SpectrumResult) :
    SpectrumResult :=
  if isIntegrationAllowed c = false then
    { spectrum with
      isValid := false
      errorMessage :=
        some "Integration is not allowed when high pass filter is not used" }
  else if spectrum.quantity = Quantity.Displacement then
    { spectrum with
      isValid := false
      errorMessage :=
        some "Cannot integrate displacement to prevent double integration" }
  else
    let newQuantity :=
      match spectrum.quantity with
      | Quantity.Acceleration => Quantity.Velocity
      | Quantity.Velocity => Quantity.Displacement
      | q => q
    { spectrum with
      quantity := newQuantity
      bandPeaks := spectrum.bandPeaks.filterMap (integrateEntry piQ)
      isValid := true }

/-- Method `calculatePeakInBand`: `-1` for an invalid result, otherwise the value
of the first entry whose key equals `(startFreq, endFreq)`, and `-1` when
no entry matches. -/
def calculatePeakInBand (spectrum : SpectrumResult)
    (startFreq endFreq : ℚ) : ℚ :=
  if spectrum.isValid = false then
    -1
  else
    match spectrum.bandPeaks.find? fun bv =>
        decide (bv.1.1 = startFreq) && decide (bv.1.2 = endFreq) with
    | some bv => bv.2
    | none => -1

/-- The integration loop of `integrateSpectrum` with both heap cells
threaded explicitly: the first argument is the cell backing the *input*
map (iterated over, never written), the second the fresh cell backing the
*output* map (each `set` appends, since every key is a distinct array
reference).  Returns the final contents of both cells. -/
def integrationLoop (piQ : ℚ) :
    List BandEntry → List BandEntry → List BandEntry × List BandEntry
  | [], outCell => ([], outCell)
  | bv :: rest, outCell =>
      let outCell2 :=
        match integrateEntry piQ bv with
        | none => outCell
        | some e => outCell ++ [e]
      let (restFinal, outFinal) := integrationLoop piQ rest outCell2
      (bv :: restFinal, outFinal)

/-- Method `integrateSpectrum` with the state of the input object tracked through
the call: the first component is the returned result, the second is the
input object as it stands when the call returns (every field update and
`Map.set` performed by the body is applied to the object it targets). -/
def integrateSpectrumTracked (piQ : ℚ) (c : Config)
    (spectrum : SpectrumResult) : SpectrumResult × SpectrumResult :=
  if isIntegrationAllowed c = false then
    ({ spectrum with
       isValid := false
       errorMessage :=
         some "Integration is not allowed when high pass filter is not used" },
     spectrum)
  else if spectrum.quantity = Quantity.Displacement then
    ({ spectrum with
       isValid := false
       errorMessage :=
         some "Cannot integrate displacement to prevent double integration" },
     spectrum)
  else
    let newQuantity :=
      match spectrum.quantity with
      | Quantity.Acceleration => Quantity.Velocity
      | Quantity.Velocity => Quantity.Displacement
      | q => q
    let (inputCellFinal, outputCellFinal) :=
      integrationLoop piQ spectrum.bandPeaks []
    ({ spectrum with
       quantity := newQuantity
       bandPeaks := outputCellFinal
       isValid := true },
     { spectrum with bandPeaks := inputCellFinal })

/-- Bool-valued substring test on the underlying character lists. -/
def containsSubstr (hay needle : String) : Bool :=
  containsSubstrAux needle.data hay.data
where
  containsSubstrAux (needle : List Char) : List Char → Bool
    | [] => needle.isPrefixOf []
    | c :: rest =>
        needle.isPrefixOf (c :: rest) || containsSubstrAux needle rest

/-! ### Basic evaluation lemmas -/

@[simp]
lemma limitPrecision_zero : limitPrecision 0 = 0 := by
  simp [limitPrecision]

lemma bandStarts_cons (startFreq maxFreq range : ℚ) (h1 : startFreq < maxFreq)
    (h2 : 0 < range) :
    bandStarts startFreq maxFreq range =
      startFreq :: bandStarts (startFreq + range) maxFreq range := by
  rw [bandStarts]
  exact dif_pos ⟨h1, h2⟩

lemma bandStarts_nil (startFreq maxFreq range : ℚ)
    (h : ¬ startFreq < maxFreq) :
    bandStarts startFreq maxFreq range = [] := by
  rw [bandStarts]
  exact dif_neg (by tauto)

/-- On the success path, `calculateSpectrum` returns the valid result built
from the window → zero-pad → transform → magnitude pipeline and the band
loop over the *unfiltered* magnitude spectrum. -/
lemma calculateSpectrum_success (rt : List ℚ → List ℚ) (sqrtQ cosQ : ℚ → ℚ)
    (piQ : ℚ) (c : Config) (w : TimeWaveform) (e : ℚ)
    (h1 : areParametersValid c = true) (h2 : isFilterValid c = true)
    (h3 : ¬ w.sampleRate < c.maxFrequency * 2.56)
    (h4 : ¬ CONSTANTS.MAX_SAMPLE_RATE < w.sampleRate)
    (h5 : ¬ CONSTANTS.MAX_SAMPLE_RATE * CONSTANTS.MAX_WAVEFORM_LENGTH <
      (w.data.length : ℚ))
    (h6 : ¬ CONSTANTS.MAX_SPECTRUM_CALC_TIME < e) :
    calculateSpectrum rt sqrtQ cosQ piQ c w e =
      (let paddedData := zeroPad (applyWindow cosQ piQ c.windowType w.data)
       let spectrum := magnitudeSpectrum sqrtQ (rt paddedData) paddedData.length
       let resolution := w.sampleRate / (paddedData.length : ℚ)
       { maxFrequency := c.maxFrequency
         resolution := resolution
         quantity := w.quantity
         bandPeaks := (bandStarts c.minFrequency c.maxFrequency c.bandRange).map
           fun startFreq =>
             let endFreq := min (startFreq + c.bandRange) c.maxFrequency
             ((startFreq, endFreq),
               calculateRealPeakInBand spectrum startFreq endFreq resolution)
         isValid := true
         errorMessage := none
         rawSpectrum := some spectrum }) := by
  simp only [calculateSpectrum]
  rw [if_neg (by simp [h1]), if_neg (by simp [h2]), if_neg h3, if_neg h4,
    if_neg h5, if_neg h6]

/-- A valid result can only come from the success path, so all the guard
checks must have passed. -/
lemma calculateSpectrum_valid_guards (rt : List ℚ → List ℚ)
    (sqrtQ cosQ : ℚ → ℚ) (piQ : ℚ) (c : Config) (w : TimeWaveform) (e : ℚ)
    (h : (calculateSpectrum rt sqrtQ cosQ piQ c w e).isValid = true) :
    areParametersValid c = true ∧ isFilterValid c = true ∧
    (¬ w.sampleRate < c.maxFrequency * 2.56) ∧
    (¬ CONSTANTS.MAX_SAMPLE_RATE < w.sampleRate) ∧
    (¬ CONSTANTS.MAX_SAMPLE_RATE * CONSTANTS.MAX_WAVEFORM_LENGTH <
      (w.data.length : ℚ)) ∧
    (¬ CONSTANTS.MAX_SPECTRUM_CALC_TIME < e) := by
  by_cases h1 : areParametersValid c = false
  · rw [calculateSpectrum, if_pos h1] at h
    simp at h
  by_cases h2 : isFilterValid c = false
  · rw [calculateSpectrum, if_neg h1, if_pos h2] at h
    simp at h
  by_cases h3 : w.sampleRate < c.maxFrequency * 2.56
  · rw [calculateSpectrum, if_neg h1, if_neg h2, if_pos h3] at h
    simp at h
  by_cases h4 : CONSTANTS.MAX_SAMPLE_RATE < w.sampleRate
  · rw [calculateSpectrum, if_neg h1, if_neg h2, if_neg h3, if_pos h4] at h
    simp at h
  by_cases h5 : CONSTANTS.MAX_SAMPLE_RATE * CONSTANTS.MAX_WAVEFORM_LENGTH <
      (w.data.length : ℚ)
  · rw [calculateSpectrum, if_neg h1, if_neg h2, if_neg h3, if_neg h4,
      if_pos h5] at h
    simp at h
  by_cases h6 : CONSTANTS.MAX_SPECTRUM_CALC_TIME < e
  · simp only [calculateSpectrum] at h
    rw [if_neg h1, if_neg h2, if_neg h3, if_neg h4, if_neg h5, if_pos h6] at h
    simp at h
  · simp only [Bool.not_eq_false] at h1 h2
    exact ⟨h1, h2, h3, h4, h5, h6⟩

/-! ### Structure of the band loop -/

/-- Structural facts about the start frequencies generated by the band
loop: every start lies in `[startFreq, maxFreq)`, consecutive starts are
exactly `range` apart and are themselves below `maxFreq`, and every start
that is not the last one has its successor `x + range` still below
`maxFreq`. -/
lemma bandStarts_spec (startFreq maxFreq range : ℚ) (hr : 0 < range) :
    (∀ x ∈ bandStarts startFreq maxFreq range,
      startFreq ≤ x ∧ x < maxFreq) ∧
    List.Chain' (fun a b => b = a + range ∧ b < maxFreq)
      (bandStarts startFreq maxFreq range) ∧
    (∀ x ∈ (bandStarts startFreq maxFreq range).dropLast,
      x + range < maxFreq) := by
  induction startFreq, maxFreq, range using bandStarts.induct with
  | case1 s maxF r h ih =>
    rcases h with ⟨hlt, hr'⟩
    rw [bandStarts_cons s maxF r hlt hr']
    obtain ⟨ihMem, ihChain, ihLast⟩ := ih hr'
    refine ⟨?_, ?_, ?_⟩
    · intro x hx
      rw [List.mem_cons] at hx
      rcases hx with rfl | hx
      · exact ⟨le_refl _, hlt⟩
      · obtain ⟨hge, hup⟩ := ihMem x hx
        exact ⟨by linarith, hup⟩
    · rw [List.chain'_cons']
      refine ⟨?_, ihChain⟩
      intro b hb
      by_cases hnext : s + r < maxF
      · rw [bandStarts_cons _ _ _ hnext hr'] at hb
        simp only [List.head?_cons, Option.mem_def, Option.some.injEq] at hb
        subst hb
        exact ⟨rfl, hnext⟩
      · rw [bandStarts_nil _ _ _ hnext] at hb
        simp at hb
    · intro x hx
      by_cases hnext : s + r < maxF
      · rcases hcase : bandStarts (s + r) maxF r with _ | ⟨y, ys⟩
        · rw [hcase] at hx
          simp at hx
        · rw [hcase, List.dropLast_cons₂, List.mem_cons] at hx
          rcases hx with rfl | hx
          · exact hnext
          · exact ihLast x (by rw [hcase]; exact hx)
      · rw [bandStarts_nil _ _ _ hnext] at hx
        simp at hx
  | case2 s maxF r h =>
    rw [bandStarts]
    rw [dif_neg h]
    simp

/-! ### The pipeline on an all-zero waveform -/

lemma applyWindow_replicate_zero (cosQ : ℚ → ℚ) (piQ : ℚ)
    (wt : WindowType) (n : ℕ) :
    applyWindow cosQ piQ wt (List.replicate n 0) = List.replicate n 0 := by
  cases wt with
  | Rectangular => rfl
  | Hanning =>
    simp only [applyWindow]
    apply List.ext_getElem
    · simp
    · intro i h1 h2
      rw [List.getElem_mapIdx, List.getElem_replicate]
      ring

lemma zeroPad_replicate_zero (n : ℕ) :
    ∃ m, zeroPad (List.replicate (n : ℕ) (0 : ℚ)) = List.replicate m 0 := by
  rw [zeroPad]
  by_cases h : (List.replicate (n : ℕ) (0 : ℚ)).length <
      getNextPowerOfTwo (List.replicate (n : ℕ) (0 : ℚ)).length
  · rw [if_pos h]
    exact ⟨_, (List.replicate_add _ _ _).symm⟩
  · rw [if_neg h]
    exact ⟨n, rfl⟩

lemma getD_replicate_zero (m i : ℕ) :
    (List.replicate m (0 : ℚ)).getD i 0 = 0 := by
  rw [List.getD_eq_getElem?_getD, List.getElem?_replicate]
  by_cases h : i < m
  · rw [if_pos h]
    rfl
  · rw [if_neg h]
    rfl

lemma magnitudeSpectrum_replicate_zero (sqrtQ : ℚ → ℚ)
    (hsqrt : sqrtQ 0 = 0) (k n : ℕ) :
    magnitudeSpectrum sqrtQ (List.replicate k 0) n =
      List.replicate (n / 2) 0 := by
  rw [magnitudeSpectrum]
  have hconst : ∀ i ∈ List.range (n / 2),
      limitPrecision
        (sqrtQ ((List.replicate k (0:ℚ)).getD (2 * i) 0 *
            (List.replicate k (0:ℚ)).getD (2 * i) 0 +
            (List.replicate k (0:ℚ)).getD (2 * i + 1) 0 *
            (List.replicate k (0:ℚ)).getD (2 * i + 1) 0) / (n : ℚ)) = 0 := by
    intro i _
    rw [getD_replicate_zero, getD_replicate_zero]
    rw [show (0:ℚ) * 0 + 0 * 0 = 0 by ring, hsqrt, zero_div,
      limitPrecision_zero]
  have := List.eq_replicate_of_mem (l := (List.range (n / 2)).map fun i =>
    limitPrecision
      (sqrtQ ((List.replicate k (0:ℚ)).getD (2 * i) 0 *
          (List.replicate k (0:ℚ)).getD (2 * i) 0 +
          (List.replicate k (0:ℚ)).getD (2 * i + 1) 0 *
          (List.replicate k (0:ℚ)).getD (2 * i + 1) 0) / (n : ℚ)))
    (a := (0 : ℚ)) ?_
  · rw [this, List.length_map, List.length_range]
  · intro b hb
    rw [List.mem_map] at hb
    obtain ⟨i, hi, rfl⟩ := hb
    exact hconst i hi

lemma calculateRealPeakInBand_replicate_zero (m : ℕ)
    (startFreq endFreq resolution : ℚ) :
    calculateRealPeakInBand (List.replicate m 0) startFreq endFreq
      resolution = 0 := by
  rw [calculateRealPeakInBand]
  have hfix : ∀ (f : ℚ → ℕ → ℚ), (∀ i, f 0 i = 0) →
      ∀ l : List ℕ, l.foldl f 0 = 0 := by
    intro f hf l
    induction l with
    | nil => rfl
    | cons a l ih =>
      rw [List.foldl_cons, hf a]
      exact ih
  rw [hfix _ ?_ _, limitPrecision_zero]
  intro i
  simp only [getD_replicate_zero]
  exact if_neg (lt_irrefl 0)

/-- The band keys of a result, in insertion order. -/
def bandKeys (r : SpectrumResult) : List (ℚ × ℚ) :=
  r.bandPeaks.map Prod.fst

/-! ### Claim theorems -/

/-- C5: every result returned with `isValid = true` by `calculateSpectrum`
has band keys that, in insertion order, start at `minFrequency`, are
strictly ascending and contiguous (each band's end equals the next band's
start), lie within `[minFrequency, maxFrequency)` (each band's start is at
least `minFrequency`, below its end, and its end is at most
`maxFrequency`), satisfy `end - start ≤ bandRange` everywhere, with
equality for every band except possibly the last. -/
theorem claim_C5_band_structure (rt : List ℚ → List ℚ)
    (sqrtQ cosQ : ℚ → ℚ) (piQ : ℚ) (c : Config) (w : TimeWaveform) (e : ℚ)
    (h : (calculateSpectrum rt sqrtQ cosQ piQ c w e).isValid = true) :
    (∃ k, (bandKeys (calculateSpectrum rt sqrtQ cosQ piQ c w e)).head? =
      some k ∧ k.1 = c.minFrequency) ∧
    List.Chain' (fun k₁ k₂ => k₁.2 = k₂.1 ∧ k₁.1 < k₂.1)
      (bandKeys (calculateSpectrum rt sqrtQ cosQ piQ c w e)) ∧
    (∀ k ∈ bandKeys (calculateSpectrum rt sqrtQ cosQ piQ c w e),
      c.minFrequency ≤ k.1 ∧ k.1 < k.2 ∧ k.2 ≤ c.maxFrequency ∧
      k.2 - k.1 ≤ c.bandRange) ∧
    (∀ k ∈ (bandKeys (calculateSpectrum rt sqrtQ cosQ piQ c w e)).dropLast,
      k.2 - k.1 = c.bandRange) := by
  obtain ⟨h1, h2, h3, h4, h5, h6⟩ :=
    calculateSpectrum_valid_guards rt sqrtQ cosQ piQ c w e h
  have hparams := h1
  simp only [areParametersValid, Bool.and_eq_true, decide_eq_true_eq]
    at hparams
  obtain ⟨⟨⟨⟨⟨-, -⟩, hmin0⟩, hminmax⟩, hrange⟩, hrangemax⟩ := hparams
  rw [calculateSpectrum_success rt sqrtQ cosQ piQ c w e h1 h2 h3 h4 h5 h6]
  obtain ⟨hMem, hChain, hLast⟩ :=
    bandStarts_spec c.minFrequency c.maxFrequency c.bandRange hrange
  simp only [bandKeys, List.map_map]
  refine ⟨?_, ?_, ?_, ?_⟩
  · rw [bandStarts_cons c.minFrequency c.maxFrequency c.bandRange hminmax
      hrange]
    exact ⟨_, rfl, rfl⟩
  · rw [List.chain'_map]
    refine hChain.imp ?_
    intro a b hab
    obtain ⟨hb, hblt⟩ := hab
    dsimp only [Function.comp]
    constructor
    · rw [hb] at hblt ⊢
      exact min_eq_left (le_of_lt hblt)
    · rw [hb]
      linarith
  · intro k hk
    rw [List.mem_map] at hk
    obtain ⟨s, hs, rfl⟩ := hk
    obtain ⟨hsmin, hsmax⟩ := hMem s hs
    dsimp only [Function.comp]
    refine ⟨hsmin, ?_, ?_, ?_⟩
    · exact lt_min (by linarith) hsmax
    · exact min_le_right _ _
    · have := min_le_left (s + c.bandRange) c.maxFrequency
      linarith
  · intro k hk
    rw [← List.map_dropLast, List.mem_map] at hk
    obtain ⟨s, hs, rfl⟩ := hk
    have hlt := hLast s hs
    dsimp only [Function.comp]
    rw [min_eq_left (le_of_lt hlt)]
    ring

/-- Witness for C5 at a concrete valid computation. -/
theorem claim_C5_band_structure_witness :
    (calculateSpectrum (fun _ => []) id id 0
      { numberOfLines := 100, windowType := WindowType.Rectangular,
        minFrequency := 0, maxFrequency := 1, highPassFrequency := 0,
        lowPassFrequency := 0, bandRange := 1 }
      { data := [], sampleRate := 3, quantity := Quantity.Velocity }
      0).isValid = true ∧
    (∃ k, (bandKeys (calculateSpectrum (fun _ => []) id id 0
      { numberOfLines := 100, windowType := WindowType.Rectangular,
        minFrequency := 0, maxFrequency := 1, highPassFrequency := 0,
        lowPassFrequency := 0, bandRange := 1 }
      { data := [], sampleRate := 3, quantity := Quantity.Velocity }
      0)).head? = some k ∧ k.1 = 0) := by
  have hv : (calculateSpectrum (fun _ => []) id id 0
      { numberOfLines := 100, windowType := WindowType.Rectangular,
        minFrequency := 0, maxFrequency := 1, highPassFrequency := 0,
        lowPassFrequency := 0, bandRange := 1 }
      { data := [], sampleRate := 3, quantity := Quantity.Velocity }
      0).isValid = true := by
    rw [calculateSpectrum_success _ _ _ _ _ _ _ (by decide) (by decide)
      (by decide) (by decide) (by decide) (by decide)]
  exact ⟨hv, (claim_C5_band_structure (fun _ => []) id id 0 _ _ 0 hv).1⟩

/-- C6 (as stated) is false: with the default configuration — which is
jointly valid — `calculateSpectrum` on an all-zero waveform of sample rate
`1` returns an *invalid* result, because the waveform fails the
`sampleRate ≥ 2.56 · maxFrequency` admission check. -/
theorem claim_C6_counterexample :
    areParametersValid { } = true ∧ isFilterValid { } = true ∧
    (calculateSpectrum (fun _ => []) id id 0 { }
      { data := [0, 0, 0, 0], sampleRate := 1,
        quantity := Quantity.Acceleration } 0).isValid = false := by
  refine ⟨by decide, by decide, ?_⟩
  rw [calculateSpectrum, if_neg (by decide), if_neg (by decide),
    if_pos (by decide)]

/-- C6 (amended): for every jointly valid configuration with a sane
filter, `calculateSpectrum` on an all-zero waveform that passes the
sample-rate and length admission checks, computed within the time budget,
yields a valid result whose every band peak is `0` — given that the
external transform maps a zero array to a zero array and the external
square root maps `0` to `0`. -/
theorem claim_C6_zero_waveform (rt : List ℚ → List ℚ) (sqrtQ cosQ : ℚ → ℚ)
    (piQ : ℚ) (c : Config) (n : ℕ) (sr : ℚ) (q : Quantity) (e : ℚ)
    (hrt : ∀ m, rt (List.replicate m 0) = List.replicate (2 * m) 0)
    (hsqrt : sqrtQ 0 = 0)
    (h1 : areParametersValid c = true) (h2 : isFilterValid c = true)
    (h3 : ¬ sr < c.maxFrequency * 2.56)
    (h4 : ¬ CONSTANTS.MAX_SAMPLE_RATE < sr)
    (h5 : ¬ CONSTANTS.MAX_SAMPLE_RATE * CONSTANTS.MAX_WAVEFORM_LENGTH <
      (n : ℚ))
    (h6 : ¬ CONSTANTS.MAX_SPECTRUM_CALC_TIME < e) :
    (calculateSpectrum rt sqrtQ cosQ piQ c
      { data := List.replicate n 0, sampleRate := sr, quantity := q }
      e).isValid = true ∧
    ∀ bv ∈ (calculateSpectrum rt sqrtQ cosQ piQ c
      { data := List.replicate n 0, sampleRate := sr, quantity := q }
      e).bandPeaks, bv.2 = 0 := by
  rw [calculateSpectrum_success rt sqrtQ cosQ piQ c _ e h1 h2 h3 h4
    (by simpa using h5) h6]
  obtain ⟨m, hm⟩ := zeroPad_replicate_zero n
  dsimp only
  rw [applyWindow_replicate_zero, hm, hrt,
    magnitudeSpectrum_replicate_zero sqrtQ hsqrt]
  refine ⟨rfl, ?_⟩
  intro bv hbv
  rw [List.mem_map] at hbv
  obtain ⟨s, hs, rfl⟩ := hbv
  exact calculateRealPeakInBand_replicate_zero _ _ _ _

/-- Witness for the amended C6 at a concrete input. -/
theorem claim_C6_zero_waveform_witness :
    (calculateSpectrum (fun l => List.replicate (2 * l.length) 0) id id 0
      ({ } : Config)
      { data := List.replicate 4 0, sampleRate := 2560,
        quantity := Quantity.Acceleration } 0).isValid = true ∧
    ∀ bv ∈ (calculateSpectrum (fun l => List.replicate (2 * l.length) 0)
      id id 0 ({ } : Config)
      { data := List.replicate 4 0, sampleRate := 2560,
        quantity := Quantity.Acceleration } 0).bandPeaks, bv.2 = 0 :=
  claim_C6_zero_waveform (fun l => List.replicate (2 * l.length) 0) id id
    0 ({ } : Config) 4 2560 Quantity.Acceleration 0
    (fun m => by simp) rfl (by decide) (by decide)
    (by decide) (by decide) (by decide) (by decide)

/-- C1: concrete run demonstrating that `calculateSpectrum` aggregates
band peaks over the *unfiltered* magnitude spectrum, not over the output
of the frequency-domain filter stage.  The waveform `[1,1,1,1]` at sample
rate 4 has exact transform `[4,0,0,0]` (the supplied `rt` and `sqrtQ`
return exactly the values the external primitives would: the DFT of
`[1,1,1,1]` and `sqrt` at the two points `16` and `0` at which it is
evaluated), so the magnitude spectrum is `[1, 0]` at resolution 1 Hz/bin.
The high-pass at 1 Hz zeroes bin 0, so the filtered spectrum is `[0, 0]`
and the claimed peak of band `[0, 1)` is `0`; the code returns `1`. -/
theorem claim_C1_eval :
    (calculateSpectrum (fun _ => [4, 0, 0, 0, 0, 0, 0, 0])
      (fun q => if q = 16 then 4 else 0) id 0
      { numberOfLines := 1024, windowType := WindowType.Rectangular,
        minFrequency := 0, maxFrequency := 3/2, highPassFrequency := 1,
        lowPassFrequency := 0, bandRange := 1 }
      { data := [1, 1, 1, 1], sampleRate := 4,
        quantity := Quantity.Acceleration } 0).bandPeaks =
      [((0, 1), 1), ((1, 3/2), 0)] ∧
    (calculateSpectrum (fun _ => [4, 0, 0, 0, 0, 0, 0, 0])
      (fun q => if q = 16 then 4 else 0) id 0
      { numberOfLines := 1024, windowType := WindowType.Rectangular,
        minFrequency := 0, maxFrequency := 3/2, highPassFrequency := 1,
        lowPassFrequency := 0, bandRange := 1 }
      { data := [1, 1, 1, 1], sampleRate := 4,
        quantity := Quantity.Acceleration } 0).rawSpectrum = some [1, 0] ∧
    (calculateSpectrum (fun _ => [4, 0, 0, 0, 0, 0, 0, 0])
      (fun q => if q = 16 then 4 else 0) id 0
      { numberOfLines := 1024, windowType := WindowType.Rectangular,
        minFrequency := 0, maxFrequency := 3/2, highPassFrequency := 1,
        lowPassFrequency := 0, bandRange := 1 }
      { data := [1, 1, 1, 1], sampleRate := 4,
        quantity := Quantity.Acceleration } 0).resolution = 1 ∧
    applyFrequencyDomainFiltering
      { numberOfLines := 1024, windowType := WindowType.Rectangular,
        minFrequency := 0, maxFrequency := 3/2, highPassFrequency := 1,
        lowPassFrequency := 0, bandRange := 1 } [1, 0] 1 = [0, 0] ∧
    calculateRealPeakInBand [0, 0] 0 1 1 = 0 := by
  have hb : bandStarts 0 (3/2) 1 = [0, 1] := by
    rw [bandStarts_cons 0 (3/2) 1 (by norm_num) one_pos]
    norm_num
    rw [bandStarts_cons 1 (3/2) 1 (by norm_num) one_pos]
    rw [bandStarts_nil (1 + 1) (3/2) 1 (by norm_num)]
  rw [calculateSpectrum_success _ _ _ _ _ _ _ (by decide) (by decide)
    (by decide) (by decide) (by decide) (by decide)]
  dsimp only
  rw [hb]
  decide

/-- C2: whenever the current configuration has a positive high-pass
frequency and the input's quantity is Acceleration or Velocity,
`integrateSpectrum` returns a valid result; the quantity advances exactly
one step; every input band with positive center frequency maps to its
value divided by `2·π·centerFreq` rounded to 10 decimals; every output
band arises that way from an input band; and every input band with
non-positive center frequency is absent from the output mapping. -/
theorem claim_C2_integration (piQ : ℚ) (c : Config) (s : SpectrumResult)
    (hHp : 0 < c.highPassFrequency)
    (hq : s.quantity = Quantity.Acceleration ∨
      s.quantity = Quantity.Velocity) :
    (integrateSpectrum piQ c s).isValid = true ∧
    (s.quantity = Quantity.Acceleration →
      (integrateSpectrum piQ c s).quantity = Quantity.Velocity) ∧
    (s.quantity = Quantity.Velocity →
      (integrateSpectrum piQ c s).quantity = Quantity.Displacement) ∧
    (∀ bv ∈ s.bandPeaks, 0 < (bv.1.1 + bv.1.2) / 2 →
      (bv.1, limitPrecision (bv.2 / (2 * piQ * ((bv.1.1 + bv.1.2) / 2)))) ∈
        (integrateSpectrum piQ c s).bandPeaks) ∧
    (∀ bv ∈ (integrateSpectrum piQ c s).bandPeaks,
      0 < (bv.1.1 + bv.1.2) / 2 ∧
      ∃ v, (bv.1, v) ∈ s.bandPeaks ∧
        bv.2 = limitPrecision (v / (2 * piQ * ((bv.1.1 + bv.1.2) / 2)))) ∧
    (∀ bv ∈ s.bandPeaks, (bv.1.1 + bv.1.2) / 2 ≤ 0 →
      bv.1 ∉ (integrateSpectrum piQ c s).bandPeaks.map Prod.fst) := by
  have hallow : ¬ isIntegrationAllowed c = false := by
    simp [isIntegrationAllowed, hHp]
  have hnd : ¬ s.quantity = Quantity.Displacement := by
    rcases hq with h | h <;> simp [h]
  rw [integrateSpectrum, if_neg hallow, if_neg hnd]
  have hout : ∀ bv ∈ s.bandPeaks.filterMap (integrateEntry piQ),
      0 < (bv.1.1 + bv.1.2) / 2 ∧
      ∃ v, (bv.1, v) ∈ s.bandPeaks ∧
        bv.2 = limitPrecision (v / (2 * piQ * ((bv.1.1 + bv.1.2) / 2))) := by
    intro bv hbv
    obtain ⟨a, ha, hfa⟩ := List.mem_filterMap.mp hbv
    simp only [integrateEntry] at hfa
    by_cases hcf : (a.1.1 + a.1.2) / 2 ≤ 0
    · rw [if_pos hcf] at hfa
      exact absurd hfa (by simp)
    · rw [if_neg hcf] at hfa
      obtain rfl := Option.some_injective _ hfa
      exact ⟨not_le.mp hcf, a.2, ha, rfl⟩
  refine ⟨rfl, ?_, ?_, ?_, hout, ?_⟩
  · intro h
    rw [h]
  · intro h
    rw [h]
  · intro bv hbv hcf
    refine List.mem_filterMap.mpr ⟨bv, hbv, ?_⟩
    simp only [integrateEntry]
    rw [if_neg (not_le.mpr hcf)]
  · intro bv hbv hcf hmem
    rw [List.mem_map] at hmem
    obtain ⟨bv', hbv', hfst⟩ := hmem
    have := (hout bv' hbv').1
    rw [hfst] at this
    exact absurd hcf (not_le.mpr this)

/-- Witness for C2 at a concrete input: a band with center frequency 2 is
integrated, a band with center frequency 0 is dropped. -/
theorem claim_C2_integration_witness :
    (0 : ℚ) < ({ highPassFrequency := 10 } : Config).highPassFrequency ∧
    (integrateSpectrum 3 { highPassFrequency := 10 }
      { maxFrequency := 100, resolution := 1,
        quantity := Quantity.Acceleration,
        bandPeaks := [((1, 3), 4), ((-1, 1), 7)],
        isValid := true }).isValid = true ∧
    (integrateSpectrum 3 { highPassFrequency := 10 }
      { maxFrequency := 100, resolution := 1,
        quantity := Quantity.Acceleration,
        bandPeaks := [((1, 3), 4), ((-1, 1), 7)],
        isValid := true }).quantity = Quantity.Velocity ∧
    (((1, 3), limitPrecision (4 / (2 * 3 * ((1 + 3) / 2)))) : BandEntry) ∈
      (integrateSpectrum 3 { highPassFrequency := 10 }
        { maxFrequency := 100, resolution := 1,
          quantity := Quantity.Acceleration,
          bandPeaks := [((1, 3), 4), ((-1, 1), 7)],
          isValid := true }).bandPeaks ∧
    ((-1, 1) : ℚ × ℚ) ∉
      (integrateSpectrum 3 { highPassFrequency := 10 }
        { maxFrequency := 100, resolution := 1,
          quantity := Quantity.Acceleration,
          bandPeaks := [((1, 3), 4), ((-1, 1), 7)],
          isValid := true }).bandPeaks.map Prod.fst := by
  have h := claim_C2_integration 3 { highPassFrequency := 10 }
    { maxFrequency := 100, resolution := 1,
      quantity := Quantity.Acceleration,
      bandPeaks := [((1, 3), 4), ((-1, 1), 7)], isValid := true }
    (by decide) (Or.inl rfl)
  exact ⟨by decide, h.1, h.2.1 rfl,
    h.2.2.2.1 ((1, 3), 4) (by decide) (by decide),
    h.2.2.2.2.2 ((-1, 1), 7) (by decide) (by decide)⟩

/-! ### The quantity state machine, step by step -/

lemma integrateSpectrum_step_acc (piQ : ℚ) (c : Config) (s : SpectrumResult)
    (hallow : ¬ isIntegrationAllowed c = false)
    (hq : s.quantity = Quantity.Acceleration) :
    (integrateSpectrum piQ c s).quantity = Quantity.Velocity ∧
    (integrateSpectrum piQ c s).isValid = true := by
  rw [integrateSpectrum, if_neg hallow, if_neg (by rw [hq]; simp)]
  rw [hq]
  exact ⟨rfl, rfl⟩

lemma integrateSpectrum_step_vel (piQ : ℚ) (c : Config) (s : SpectrumResult)
    (hallow : ¬ isIntegrationAllowed c = false)
    (hq : s.quantity = Quantity.Velocity) :
    (integrateSpectrum piQ c s).quantity = Quantity.Displacement ∧
    (integrateSpectrum piQ c s).isValid = true := by
  rw [integrateSpectrum, if_neg hallow, if_neg (by rw [hq]; simp)]
  rw [hq]
  exact ⟨rfl, rfl⟩

lemma integrateSpectrum_step_disp (piQ : ℚ) (c : Config) (s : SpectrumResult)
    (hallow : ¬ isIntegrationAllowed c = false)
    (hq : s.quantity = Quantity.Displacement) :
    integrateSpectrum piQ c s =
      { s with
          isValid := false,
          errorMessage :=
            some "Cannot integrate displacement to prevent double integration" } := by
  rw [integrateSpectrum, if_neg hallow, if_pos hq]

/-- C3 (amended): starting from a result tagged Acceleration, with the
current configuration keeping `highPass > 0` throughout, two applications
of `integrateSpectrum` reach Displacement and a third returns an invalid
result whose reason contains "Cannot integrate displacement" (with a
capital C, as the code spells it). -/
theorem claim_C3_double_integration (piQ : ℚ) (c : Config)
    (s : SpectrumResult) (hHp : 0 < c.highPassFrequency)
    (hq : s.quantity = Quantity.Acceleration) :
    (integrateSpectrum piQ c (integrateSpectrum piQ c s)).quantity =
      Quantity.Displacement ∧
    (integrateSpectrum piQ c (integrateSpectrum piQ c
      (integrateSpectrum piQ c s))).isValid = false ∧
    ∃ msg,
      (integrateSpectrum piQ c (integrateSpectrum piQ c
        (integrateSpectrum piQ c s))).errorMessage = some msg ∧
      containsSubstr msg "Cannot integrate displacement" = true := by
  have hallow : ¬ isIntegrationAllowed c = false := by
    simp [isIntegrationAllowed, hHp]
  obtain ⟨hq1, -⟩ := integrateSpectrum_step_acc piQ c s hallow hq
  obtain ⟨hq2, -⟩ :=
    integrateSpectrum_step_vel piQ c (integrateSpectrum piQ c s) hallow hq1
  have h3 := integrateSpectrum_step_disp piQ c
    (integrateSpectrum piQ c (integrateSpectrum piQ c s)) hallow hq2
  refine ⟨hq2, ?_, ?_⟩
  · rw [h3]
  · rw [h3]
    exact ⟨_, rfl, by decide⟩

/-- C3 as frozen is false on the letter of the reason string: the code's
message starts with a capital C, so it does not contain the substring
"cannot integrate displacement". -/
theorem claim_C3_counterexample :
    (integrateSpectrum 3 { highPassFrequency := 10 }
      (integrateSpectrum 3 { highPassFrequency := 10 }
        (integrateSpectrum 3 { highPassFrequency := 10 }
          { maxFrequency := 1000, resolution := 1,
            quantity := Quantity.Acceleration,
            bandPeaks := [((25, 50), 3)], isValid := true }))).isValid
      = false ∧
    containsSubstr
      ((integrateSpectrum 3 { highPassFrequency := 10 }
        (integrateSpectrum 3 { highPassFrequency := 10 }
          (integrateSpectrum 3 { highPassFrequency := 10 }
            { maxFrequency := 1000, resolution := 1,
              quantity := Quantity.Acceleration,
              bandPeaks := [((25, 50), 3)],
              isValid := true }))).errorMessage.getD "")
      "cannot integrate displacement" = false := by
  decide

/-- Witness for the amended C3 at a concrete input. -/
theorem claim_C3_double_integration_witness :
    (integrateSpectrum 3 { highPassFrequency := 10 }
      (integrateSpectrum 3 { highPassFrequency := 10 }
        { maxFrequency := 1000, resolution := 1,
          quantity := Quantity.Acceleration,
          bandPeaks := [((25, 50), 3)], isValid := true })).quantity =
      Quantity.Displacement ∧
    (integrateSpectrum 3 { highPassFrequency := 10 }
      (integrateSpectrum 3 { highPassFrequency := 10 }
        (integrateSpectrum 3 { highPassFrequency := 10 }
          { maxFrequency := 1000, resolution := 1,
            quantity := Quantity.Acceleration,
            bandPeaks := [((25, 50), 3)], isValid := true }))).isValid
      = false ∧
    ∃ msg,
      (integrateSpectrum 3 { highPassFrequency := 10 }
        (integrateSpectrum 3 { highPassFrequency := 10 }
          (integrateSpectrum 3 { highPassFrequency := 10 }
            { maxFrequency := 1000, resolution := 1,
              quantity := Quantity.Acceleration,
              bandPeaks := [((25, 50), 3)],
              isValid := true }))).errorMessage = some msg ∧
      containsSubstr msg "Cannot integrate displacement" = true :=
  claim_C3_double_integration 3 { highPassFrequency := 10 }
    { maxFrequency := 1000, resolution := 1,
      quantity := Quantity.Acceleration,
      bandPeaks := [((25, 50), 3)], isValid := true }
    (by decide) rfl

/-- C4 (amended): a waveform whose sample rate exceeds 131072 Hz always
yields an invalid result, but it carries the sample-rate-exceeded reason
only when the joint parameter check and the filter check pass and the
Nyquist (2.56×) check does not fire first — the earlier checks take
precedence and produce their own reasons. -/
theorem claim_C4_max_sample_rate (rt : List ℚ → List ℚ)
    (sqrtQ cosQ : ℚ → ℚ) (piQ : ℚ) (c : Config) (w : TimeWaveform) (e : ℚ)
    (h : CONSTANTS.MAX_SAMPLE_RATE < w.sampleRate) :
    (calculateSpectrum rt sqrtQ cosQ piQ c w e).isValid = false ∧
    (areParametersValid c = true → isFilterValid c = true →
      ¬ w.sampleRate < c.maxFrequency * 2.56 →
      (calculateSpectrum rt sqrtQ cosQ piQ c w e).errorMessage =
        some "Sample rate cannot exceed 131072 Hz") := by
  by_cases h1 : areParametersValid c = false
  · rw [calculateSpectrum, if_pos h1]
    exact ⟨rfl, fun hv => absurd hv (by simp [h1])⟩
  by_cases h2 : isFilterValid c = false
  · rw [calculateSpectrum, if_neg h1, if_pos h2]
    exact ⟨rfl, fun _ hv => absurd hv (by simp [h2])⟩
  by_cases h3 : w.sampleRate < c.maxFrequency * 2.56
  · rw [calculateSpectrum, if_neg h1, if_neg h2, if_pos h3]
    exact ⟨rfl, fun _ _ hv => absurd h3 hv⟩
  · rw [calculateSpectrum, if_neg h1, if_neg h2, if_neg h3, if_pos h]
    exact ⟨rfl, fun _ _ _ => rfl⟩

/-- C4 as frozen is false: with a jointly valid configuration whose
`maxFrequency` is 100000 Hz, a waveform of sample rate 140000 Hz (above
131072) is rejected by the Nyquist check first, so the reason is the
2.56× message, not the sample-rate-exceeded one. -/
theorem claim_C4_counterexample :
    (140000 : ℚ) > 131072 ∧
    areParametersValid
      { numberOfLines := 1024, windowType := WindowType.Hanning,
        minFrequency := 0, maxFrequency := 100000, highPassFrequency := 0,
        lowPassFrequency := 0, bandRange := 25 } = true ∧
    (calculateSpectrum (fun _ => []) id id 0
      { numberOfLines := 1024, windowType := WindowType.Hanning,
        minFrequency := 0, maxFrequency := 100000, highPassFrequency := 0,
        lowPassFrequency := 0, bandRange := 25 }
      { data := [], sampleRate := 140000,
        quantity := Quantity.Acceleration } 0).errorMessage =
      some "Sample rate must be at least 2.56 times higher than maximum frequency" ∧
    (calculateSpectrum (fun _ => []) id id 0
      { numberOfLines := 1024, windowType := WindowType.Hanning,
        minFrequency := 0, maxFrequency := 100000, highPassFrequency := 0,
        lowPassFrequency := 0, bandRange := 25 }
      { data := [], sampleRate := 140000,
        quantity := Quantity.Acceleration } 0).errorMessage ≠
      some "Sample rate cannot exceed 131072 Hz" := by
  refine ⟨by decide, by decide, ?_, ?_⟩ <;>
    (rw [calculateSpectrum, if_neg (by decide), if_neg (by decide),
      if_pos (by decide)]; try decide)

/-- Witness for the amended C4 at a concrete input. -/
theorem claim_C4_max_sample_rate_witness :
    (calculateSpectrum (fun _ => []) id id 0
      { numberOfLines := 1024, windowType := WindowType.Hanning,
        minFrequency := 0, maxFrequency := 1000, highPassFrequency := 0,
        lowPassFrequency := 0, bandRange := 25 }
      { data := [], sampleRate := 140000,
        quantity := Quantity.Acceleration } 0).isValid = false ∧
    (areParametersValid
      { numberOfLines := 1024, windowType := WindowType.Hanning,
        minFrequency := 0, maxFrequency := 1000, highPassFrequency := 0,
        lowPassFrequency := 0, bandRange := 25 } = true →
      isFilterValid
        { numberOfLines := 1024, windowType := WindowType.Hanning,
          minFrequency := 0, maxFrequency := 1000, highPassFrequency := 0,
          lowPassFrequency := 0, bandRange := 25 } = true →
      ¬ (140000 : ℚ) < 1000 * 2.56 →
      (calculateSpectrum (fun _ => []) id id 0
        { numberOfLines := 1024, windowType := WindowType.Hanning,
          minFrequency := 0, maxFrequency := 1000, highPassFrequency := 0,
          lowPassFrequency := 0, bandRange := 25 }
        { data := [], sampleRate := 140000,
          quantity := Quantity.Acceleration } 0).errorMessage =
        some "Sample rate cannot exceed 131072 Hz") :=
  claim_C4_max_sample_rate (fun _ => []) id id 0
    { numberOfLines := 1024, windowType := WindowType.Hanning,
      minFrequency := 0, maxFrequency := 1000, highPassFrequency := 0,
      lowPassFrequency := 0, bandRange := 25 }
    { data := [], sampleRate := 140000,
      quantity := Quantity.Acceleration } 0 (by decide)

/-- C7 as frozen is false: `calculatePeakInBand` checks the validity flag
first, so on an invalid result it returns the sentinel `-1` even though an
exactly matching band key with stored value `5` exists. -/
theorem claim_C7_counterexample :
    ((((0 : ℚ), (1 : ℚ)), (5 : ℚ)) : BandEntry) ∈
      ({ maxFrequency := 10, resolution := 1,
         quantity := Quantity.Acceleration,
         bandPeaks := [((0, 1), 5)], isValid := false } :
        SpectrumResult).bandPeaks ∧
    calculatePeakInBand
      { maxFrequency := 10, resolution := 1,
        quantity := Quantity.Acceleration,
        bandPeaks := [((0, 1), 5)], isValid := false } 0 1 = -1 ∧
    (-1 : ℚ) ≠ 5 := by
  decide

/-- C7 (amended): for a *valid* result whose band keys are pairwise
distinct, `calculatePeakInBand` returns the stored value of the entry
whose key equals `(startFreq, endFreq)` exactly, and the sentinel `-1`
when no key matches; it never recomputes a peak.  (For an invalid result
it returns `-1` unconditionally, even when a matching key exists.) -/
theorem claim_C7_peak_query (s : SpectrumResult) (startFreq endFreq : ℚ)
    (hvalid : s.isValid = true)
    (hnodup : (s.bandPeaks.map Prod.fst).Nodup) :
    (∀ v, (((startFreq, endFreq), v) : BandEntry) ∈ s.bandPeaks →
      calculatePeakInBand s startFreq endFreq = v) ∧
    ((startFreq, endFreq) ∉ s.bandPeaks.map Prod.fst →
      calculatePeakInBand s startFreq endFreq = -1) := by
  rw [calculatePeakInBand, if_neg (by simp [hvalid])]
  constructor
  · intro v hv
    rcases hfind : s.bandPeaks.find? (fun bv =>
        decide (bv.1.1 = startFreq) && decide (bv.1.2 = endFreq)) with
      _ | bv₀
    · have := List.find?_eq_none.mp hfind _ hv
      simp at this
    · have hmem := List.mem_of_find?_eq_some hfind
      have hp := List.find?_some hfind
      simp only [Bool.and_eq_true, decide_eq_true_eq] at hp
      have hkey : bv₀.1 = (startFreq, endFreq) := by
        obtain ⟨hp1, hp2⟩ := hp
        exact Prod.ext hp1 hp2
      have heq2 : bv₀ = ((startFreq, endFreq), v) :=
        List.inj_on_of_nodup_map hnodup hmem hv (by rw [hkey])
      rw [hfind, heq2]
  · intro hno
    rcases hfind : s.bandPeaks.find? (fun bv =>
        decide (bv.1.1 = startFreq) && decide (bv.1.2 = endFreq)) with
      _ | bv₀
    · rw [hfind]
    · exfalso
      have hmem := List.mem_of_find?_eq_some hfind
      have hp := List.find?_some hfind
      simp only [Bool.and_eq_true, decide_eq_true_eq] at hp
      apply hno
      rw [List.mem_map]
      exact ⟨bv₀, hmem, Prod.ext hp.1 hp.2⟩

/-- Witness for the amended C7 at a concrete input. -/
theorem claim_C7_peak_query_witness :
    calculatePeakInBand
      { maxFrequency := 100, resolution := 1,
        quantity := Quantity.Acceleration,
        bandPeaks := [((0, 25), 3), ((25, 50), 7)], isValid := true }
      25 50 = 7 ∧
    calculatePeakInBand
      { maxFrequency := 100, resolution := 1,
        quantity := Quantity.Acceleration,
        bandPeaks := [((0, 25), 3), ((25, 50), 7)], isValid := true }
      3 4 = -1 := by
  have h := claim_C7_peak_query
    { maxFrequency := 100, resolution := 1,
      quantity := Quantity.Acceleration,
      bandPeaks := [((0, 25), 3), ((25, 50), 7)], isValid := true }
    25 50 rfl (by decide)
  have h2 := claim_C7_peak_query
    { maxFrequency := 100, resolution := 1,
      quantity := Quantity.Acceleration,
      bandPeaks := [((0, 25), 3), ((25, 50), 7)], isValid := true }
    3 4 rfl (by decide)
  exact ⟨h.1 7 (by decide), h2.2 (by decide)⟩

/-- The integration loop threads the input cell through unchanged and
appends the surviving integrated entries to the output cell. -/
lemma integrationLoop_spec (piQ : ℚ) (l outCell : List BandEntry) :
    (integrationLoop piQ l outCell).1 = l ∧
    (integrationLoop piQ l outCell).2 =
      outCell ++ l.filterMap (integrateEntry piQ) := by
  induction l generalizing outCell with
  | nil => simp [integrationLoop]
  | cons bv rest ih =>
    rw [integrationLoop]
    rcases hcase : integrateEntry piQ bv with _ | e
    · simp only [hcase]
      obtain ⟨ih1, ih2⟩ := ih outCell
      rw [List.filterMap_cons_none hcase]
      exact ⟨by rw [ih1], by rw [ih2]⟩
    · simp only [hcase]
      obtain ⟨ih1, ih2⟩ := ih (outCell ++ [e])
      rw [List.filterMap_cons_some hcase]
      refine ⟨by rw [ih1], by rw [ih2, List.append_assoc, List.singleton_append]⟩

/-- C8: `integrateSpectrum` never mutates its input: with every field
update and `Map.set` of the body tracked against the object it targets,
the input object is unchanged on the success path and on both failure
paths, and the tracked run returns exactly `integrateSpectrum`'s result. -/
theorem claim_C8_no_input_mutation (piQ : ℚ) (c : Config)
    (s : SpectrumResult) :
    (integrateSpectrumTracked piQ c s).2 = s ∧
    (integrateSpectrumTracked piQ c s).1 = integrateSpectrum piQ c s := by
  rw [integrateSpectrumTracked, integrateSpectrum]
  by_cases h1 : isIntegrationAllowed c = false
  · rw [if_pos h1, if_pos h1]
    exact ⟨rfl, rfl⟩
  by_cases h2 : s.quantity = Quantity.Displacement
  · rw [if_neg h1, if_neg h1, if_pos h2, if_pos h2]
    exact ⟨rfl, rfl⟩
  · rw [if_neg h1, if_neg h1, if_neg h2, if_neg h2]
    obtain ⟨hl1, hl2⟩ := integrationLoop_spec piQ s.bandPeaks []
    have heq : integrationLoop piQ s.bandPeaks [] =
        (s.bandPeaks, s.bandPeaks.filterMap (integrateEntry piQ)) := by
      rw [Prod.ext_iff]
      exact ⟨hl1, by rw [hl2, List.nil_append]⟩
    rw [heq]
    exact ⟨rfl, rfl⟩

/-- C9: `integrateSpectrum` never inspects the validity flag: an invalid
Acceleration or Velocity result is turned into a *valid* one whenever the
current configuration has `highPass > 0`. -/
theorem claim_C9_ignores_validity (piQ : ℚ) (c : Config)
    (s : SpectrumResult) (hHp : 0 < c.highPassFrequency)
    (hinvalid : s.isValid = false)
    (hq : s.quantity = Quantity.Acceleration ∨
      s.quantity = Quantity.Velocity) :
    (integrateSpectrum piQ c s).isValid = true := by
  rw [integrateSpectrum, if_neg (by simp [isIntegrationAllowed, hHp]),
    if_neg (by rcases hq with h | h <;> simp [h])]

/-- Witness for C9 at a concrete input: an invalid result becomes valid. -/
theorem claim_C9_ignores_validity_witness :
    ({ maxFrequency := 100, resolution := 1,
       quantity := Quantity.Acceleration,
       bandPeaks := [((25, 50), 3)], isValid := false,
       errorMessage := some "Invalid spectrum parameters" } :
      SpectrumResult).isValid = false ∧
    (integrateSpectrum 3 { highPassFrequency := 10 }
      { maxFrequency := 100, resolution := 1,
        quantity := Quantity.Acceleration,
        bandPeaks := [((25, 50), 3)], isValid := false,
        errorMessage := some "Invalid spectrum parameters" }).isValid =
      true :=
  ⟨rfl, claim_C9_ignores_validity 3 { highPassFrequency := 10 }
    { maxFrequency := 100, resolution := 1,
      quantity := Quantity.Acceleration,
      bandPeaks := [((25, 50), 3)], isValid := false,
      errorMessage := some "Invalid spectrum parameters" }
    (by decide) rfl (Or.inl rfl)⟩

/-- With the line count inside `[100, 102400]`, the joint parameter check
does not depend on its exact value. -/
lemma areParametersValid_update_lines (c : Config) (n : ℚ)
    (hna : CONSTANTS.MIN_LINES ≤ n) (hnb : n ≤ CONSTANTS.MAX_LINES) :
    areParametersValid { c with numberOfLines := n } =
      (decide (0 ≤ c.minFrequency) &&
       decide (c.minFrequency < c.maxFrequency) &&
       decide (0 < c.bandRange) &&
       decide (c.bandRange ≤ c.maxFrequency)) := by
  simp only [areParametersValid]
  dsimp only
  rw [decide_eq_true hna, decide_eq_true hnb]
  rw [Bool.true_and, Bool.true_and]

/-- C10: `numberOfLines` has no effect on any observable output of
`calculateSpectrum`: two configurations that differ only in a line count,
both within `[100, 102400]`, produce identical results for every waveform
(the line-count truncation is computed but its result is never used). -/
theorem claim_C10_lines_no_effect (rt : List ℚ → List ℚ)
    (sqrtQ cosQ : ℚ → ℚ) (piQ : ℚ) (c : Config) (n₁ n₂ : ℚ)
    (w : TimeWaveform) (e : ℚ)
    (h1a : CONSTANTS.MIN_LINES ≤ n₁) (h1b : n₁ ≤ CONSTANTS.MAX_LINES)
    (h2a : CONSTANTS.MIN_LINES ≤ n₂) (h2b : n₂ ≤ CONSTANTS.MAX_LINES) :
    calculateSpectrum rt sqrtQ cosQ piQ { c with numberOfLines := n₁ } w e =
      calculateSpectrum rt sqrtQ cosQ piQ { c with numberOfLines := n₂ } w
        e := by
  have hv : areParametersValid { c with numberOfLines := n₁ } =
      areParametersValid { c with numberOfLines := n₂ } := by
    rw [areParametersValid_update_lines c n₁ h1a h1b,
      areParametersValid_update_lines c n₂ h2a h2b]
  rw [calculateSpectrum, calculateSpectrum, hv]
  rfl

/-- Witness for C10 at the two extreme admissible line counts. -/
theorem claim_C10_lines_no_effect_witness :
    calculateSpectrum (fun _ => [4, 0, 0, 0, 0, 0, 0, 0])
      (fun q => if q = 16 then 4 else 0) id 0
      { numberOfLines := 100, windowType := WindowType.Rectangular,
        minFrequency := 0, maxFrequency := 3/2, highPassFrequency := 1,
        lowPassFrequency := 0, bandRange := 1 }
      { data := [1, 1, 1, 1], sampleRate := 4,
        quantity := Quantity.Acceleration } 0 =
    calculateSpectrum (fun _ => [4, 0, 0, 0, 0, 0, 0, 0])
      (fun q => if q = 16 then 4 else 0) id 0
      { numberOfLines := 102400, windowType := WindowType.Rectangular,
        minFrequency := 0, maxFrequency := 3/2, highPassFrequency := 1,
        lowPassFrequency := 0, bandRange := 1 }
      { data := [1, 1, 1, 1], sampleRate := 4,
        quantity := Quantity.Acceleration } 0 :=
  claim_C10_lines_no_effect (fun _ => [4, 0, 0, 0, 0, 0, 0, 0])
    (fun q => if q = 16 then 4 else 0) id 0
    { numberOfLines := 0, windowType := WindowType.Rectangular,
      minFrequency := 0, maxFrequency := 3/2, highPassFrequency := 1,
      lowPassFrequency := 0, bandRange := 1 } 100 102400
    { data := [1, 1, 1, 1], sampleRate := 4,
      quantity := Quantity.Acceleration } 0
    (by decide) (by decide) (by decide) (by decide)

end Spectrum
